import Mathlib

/-!
Shallow embedding of the `turn-on-air-conditioner` worker.

The repository is a Cloudflare worker that, on each scheduled tick, decides
whether to turn on an air conditioner: calendar gating (weekend / holiday /
banned pre-dawn hours), a per-day idempotency record in a key-value store,
hour-keyed trigger rules, a sensor temperature comparison, and an actuation
call.  `src/worker.ts` (scheduled handler) and `src/handler/fetch.tsx`
(administrative CRUD routes) are embedded below; the helper module
`src/lib/date.ts`, `src/lib/pair.ts` and `src/switchbot.ts` are absent from
the sources, so their functions are modelled from the specification and
pinned by the repository's `src/lib/date.test.ts`.

Numbers: hours and weekday indices are `Int` (JS `Date.getDay`/`getHours`
results and the test suite's negative probe values); temperatures are `ℚ`
(JS numbers compared only by order); TTL seconds are `Nat`.
-/

namespace TurnOnAC

/-- Modelled from the spec: `isWeekend` from the absent `src/lib/date.ts`.
Weekend means Sunday (index 0) or Saturday (index 6); pinned by
`date.test.ts` (true at 0 and 6, false at -1, 1, 5, 7). -/
def isWeekend (day : Int) : Bool := day == 0 || day == 6

/-- Modelled from the spec: `isBannedHour` from the absent `src/lib/date.ts`.
The banned pre-dawn window; pinned by `date.test.ts`
(true at 0, 1, 5, 6; false at -1 and 7), i.e. `0 ≤ hour < 7`. -/
def isBannedHour (hour : Int) : Bool := decide (0 ≤ hour) && decide (hour < 7)

/-- Modelled from the spec: the Sunday-based weekday index of the civil date
`y-m-d` (Sakamoto's method), needed because the spec defines the
week-of-month bucket via the weekday of the first day of the month. -/
def dayOfWeek (y m d : Nat) : Nat :=
  let t : List Nat := [0, 3, 2, 5, 0, 3, 5, 1, 4, 6, 2, 4]
  let y2 := if m < 3 then y - 1 else y
  (y2 + y2 / 4 - y2 / 100 + y2 / 400 + t.getD (m - 1) 0 + d) % 7

/-- Modelled from the spec: `getWhatWeekOfMonth` from the absent
`src/lib/date.ts`.  `offset` is the weekday index (Sunday = 0) of the first
day of the month, `d` the 1-based day of month; the result is
`1 + floor((d - 1 + offset) / 7)`.  Pinned by `date.test.ts`. -/
def getWhatWeekOfMonth (y m d : Nat) : Nat :=
  1 + (d - 1 + dayOfWeek y m 1) / 7

/-- A trigger rule of `src/worker.ts` (type imported from the absent
`src/lib/pair.ts`): an hour of day and a room-temperature threshold. -/
structure Trigger where
  hour : Int
  temp : ℚ
deriving DecidableEq

/-- The hard-coded rule list `TRIGGERS` of `src/worker.ts`. -/
def TRIGGERS : List Trigger := [⟨16, 38⟩, ⟨17, 35⟩, ⟨18, 33⟩]

/-- Modelled from the spec: `filterValidTrigger` from the absent
`src/lib/pair.ts` — the subset of the rules whose `hour` equals the given
hour (the spec's `selectActiveRules`). -/
def filterValidTrigger (ts : List Trigger) (hour : Int) : List Trigger :=
  ts.filter (fun t => t.hour == hour)

/-- `[...new Set(l)]` in JS: deduplicate keeping first occurrences.
Auxiliary recursion carrying the set of elements already emitted. -/
def jsSetDedupAux {α : Type} [DecidableEq α] : List α → List α → List α
  | _, [] => []
  | seen, x :: xs =>
      if x ∈ seen then jsSetDedupAux seen xs else x :: jsSetDedupAux (x :: seen) xs

/-- `[...new Set(l)]` in JS. -/
def jsSetDedup {α : Type} [DecidableEq α] (l : List α) : List α :=
  jsSetDedupAux [] l

/-- `isAlreadyTurnedOnToday` of `src/worker.ts`:
`kv.get(date).then((v) => !!v)` — JS truthiness of `string | null`
(null and the empty string are falsy). -/
def isAlreadyTurnedOnToday (date : String) (kv : String → Option String) : Bool :=
  match kv date with
  | none => false
  | some v => !(v == "")

/-- The spec's `shouldActuate`, as computed by `src/worker.ts` lines 40–46:
deduplicate the thresholds of the active rules, then
`!!triggerTemps.find((t) => actualTemp >= t)`.  JS `find` yields the first
qualifying threshold itself (or `undefined`), and `!!` coerces it by
number truthiness, so a found threshold of `0` still yields `false`. -/
def shouldActuate (active : List Trigger) (temp : ℚ) : Bool :=
  match (jsSetDedup (active.map (fun t => t.temp))).find? (fun v => decide (temp ≥ v)) with
  | none => false
  | some v => decide (v ≠ 0)

/-- The data a single tick of the scheduled handler consumes:
`now.getDay()`, `isHoliday(now)`, `now.getHours()`, `formatDate(now)`,
the history KV contents, the meter temperature the SwitchBot client would
report, and the outcome of the turn-on call (which the code never reads). -/
structure TickInput where
  day : Int
  holiday : Bool
  hour : Int
  dateKey : String
  history : String → Option String
  meterTemp : ℚ
  actuationOk : Bool

/-- Observable effects of one tick of the scheduled handler:
whether the history KV was read, whether the meter was read, the actuation
command issued (its target temperature), and the history write issued
(key, value, TTL in seconds). -/
structure TickResult where
  historyRead : Bool
  sensorRead : Bool
  actuation : Option ℚ
  historyPut : Option (String × String × Nat)
deriving DecidableEq

/-- The tick result when the handler returns at the calendar gates. -/
def emptyTick : TickResult := ⟨false, false, none, none⟩

/-- The `scheduled` handler of `src/worker.ts`, generalised over the rule
list it consults (the source instantiates it with the module constant
`TRIGGERS`; see `scheduled`).  The source's local `triggerTemps` (the
deduplicated thresholds of the hour's triggers) is inlined at its use
sites, and its local `isTempHigherThanTriggers`
(`!!triggerTemps.find((t) => actualTemp >= t)`) is exactly `shouldActuate`
applied to the active rules.  Both `ctx.waitUntil` calls of the source are
issued unconditionally once the temperature comparison succeeds, so the
history put does not depend on `actuationOk`. -/
def scheduledRun (triggers : List Trigger) (inp : TickInput) : TickResult :=
  if isWeekend inp.day || inp.holiday then emptyTick
  else if isBannedHour inp.hour then emptyTick
  else if isAlreadyTurnedOnToday inp.dateKey inp.history then
    { historyRead := true, sensorRead := false, actuation := none, historyPut := none }
  else if (jsSetDedup ((filterValidTrigger triggers inp.hour).map (fun t => t.temp))).isEmpty then
    { historyRead := true, sensorRead := false, actuation := none, historyPut := none }
  else if !(shouldActuate (filterValidTrigger triggers inp.hour) inp.meterTemp) then
    { historyRead := true, sensorRead := true, actuation := none, historyPut := none }
  else
    { historyRead := true, sensorRead := true, actuation := some 28,
      historyPut := some (inp.dateKey, "done!", 60 * 60 * 24) }

/-- The `scheduled` handler of `src/worker.ts` with its hard-coded rules. -/
def scheduled (inp : TickInput) : TickResult := scheduledRun TRIGGERS inp

/-- Modelled from the spec: the CalendarGate predicate `isEligible` (§4.2),
matching the two early-return gates the worker inlines. -/
def isEligible (day : Int) (holiday : Bool) (hour : Int) : Bool :=
  !(isWeekend day || holiday) && !(isBannedHour hour)

theorem jsSetDedupAux_mem {α : Type} [DecidableEq α] (x : α) :
    ∀ (l seen : List α), x ∈ jsSetDedupAux seen l ↔ x ∈ l ∧ x ∉ seen := by
  intro l
  induction l with
  | nil => intro seen; simp [jsSetDedupAux]
  | cons y ys ih =>
      intro seen
      by_cases hy : y ∈ seen
      · rw [jsSetDedupAux, if_pos hy, ih]
        simp only [List.mem_cons]
        by_cases hxy : x = y
        · subst hxy; tauto
        · tauto
      · rw [jsSetDedupAux, if_neg hy]
        simp only [List.mem_cons, ih]
        by_cases hxy : x = y
        · subst hxy; tauto
        · tauto

theorem jsSetDedup_mem {α : Type} [DecidableEq α] (x : α) (l : List α) :
    x ∈ jsSetDedup l ↔ x ∈ l := by
  rw [jsSetDedup, jsSetDedupAux_mem]
  simp

namespace Fetch

/-- A JSON value, the shape of what the KV store persists and what
`zod`'s `safeParse` consumes in `src/handler/fetch.tsx` (numbers by order
only, hence `ℚ`). -/
inductive JsonVal where
  | jnull
  | jbool (b : Bool)
  | jnum (q : ℚ)
  | jstr (s : String)
  | jarr (elems : List JsonVal)
  | jobj (fields : List (String × JsonVal))

/-- The AC operation mode of `fetch.tsx`'s `z.enum(['COOL', 'HEAT'])`. -/
inductive Mode where
  | cool
  | heat
deriving DecidableEq

/-- `airConditionerSettingsSchema` of `fetch.tsx`. -/
structure AirConditionerSettings where
  operationMode : Mode
  settingsTemp : ℚ
deriving DecidableEq

/-- `timeSchema` of `fetch.tsx` (`hour` 0–24, `minute` 0–59 after decode). -/
structure TimeOfDay where
  hour : ℚ
  minute : ℚ
deriving DecidableEq

/-- `triggerSchema` of `fetch.tsx`. -/
structure Trigger where
  time : TimeOfDay
  roomTemp : ℚ
  airConditionerSettings : AirConditionerSettings
deriving DecidableEq

/-- `dateSchema` of `fetch.tsx` (field `dy` as in the source). -/
structure DateVal where
  year : ℚ
  month : ℚ
  dy : ℚ
deriving DecidableEq

/-- `dateTriggerSchema` of `fetch.tsx`. -/
structure DateTrigger where
  date : DateVal
  triggers : List Trigger
deriving DecidableEq

/-- `z.number().min(lo).max(hi).safeParse`: a number within bounds. -/
def decodeBoundedNum (lo hi : ℚ) : JsonVal → Option ℚ
  | .jnum q => if lo ≤ q ∧ q ≤ hi then some q else none
  | _ => none

/-- `z.number().safeParse`: any number. -/
def decodeNum : JsonVal → Option ℚ
  | .jnum q => some q
  | _ => none

/-- `timeSchema.safeParse`. -/
def decodeTime : JsonVal → Option TimeOfDay
  | .jobj fields => do
      let h ← (List.lookup "hour" fields).bind (decodeBoundedNum 0 24)
      let m ← (List.lookup "minute" fields).bind (decodeBoundedNum 0 59)
      pure ⟨h, m⟩
  | _ => none

/-- `z.enum(['COOL', 'HEAT']).safeParse`. -/
def decodeMode : JsonVal → Option Mode
  | .jstr "COOL" => some .cool
  | .jstr "HEAT" => some .heat
  | _ => none

/-- `airConditionerSettingsSchema.safeParse`. -/
def decodeSettings : JsonVal → Option AirConditionerSettings
  | .jobj fields => do
      let md ← (List.lookup "operationMode" fields).bind decodeMode
      let st ← (List.lookup "settingsTemp" fields).bind (decodeBoundedNum 0 100)
      pure ⟨md, st⟩
  | _ => none

/-- `triggerSchema.safeParse`: strict decoding of one stored trigger. -/
def decodeTrigger : JsonVal → Option Trigger
  | .jobj fields => do
      let tm ← (List.lookup "time" fields).bind decodeTime
      let rt ← (List.lookup "roomTemp" fields).bind (decodeBoundedNum 0 100)
      let ac ← (List.lookup "airConditionerSettings" fields).bind decodeSettings
      pure ⟨tm, rt, ac⟩
  | _ => none

/-- `dateSchema.safeParse`. -/
def decodeDate : JsonVal → Option DateVal
  | .jobj fields => do
      let y ← (List.lookup "year" fields).bind decodeNum
      let m ← (List.lookup "month" fields).bind decodeNum
      let d ← (List.lookup "dy" fields).bind decodeNum
      pure ⟨y, m, d⟩
  | _ => none

/-- `dateTriggerSchema.safeParse` (`z.array` fails if any element fails). -/
def decodeDateTrigger : JsonVal → Option DateTrigger
  | .jobj fields => do
      let dt ← (List.lookup "date" fields).bind decodeDate
      let ts ← (List.lookup "triggers" fields).bind (fun v =>
        match v with
        | .jarr xs => xs.mapM decodeTrigger
        | _ => none)
      pure ⟨dt, ts⟩
  | _ => none

/-- The default-trigger listing of the `GET /` route: each listed key is
read with `{ type: 'json' }` (possibly `null` if the key vanished), run
through `triggerSchema.safeParse`, failures mapped to `undefined` and
filtered out by `nonNullable`. -/
def listTriggersRead (raw : List (Option JsonVal)) : List Trigger :=
  raw.filterMap (fun o => o.bind decodeTrigger)

/-- The date-override listing of the `GET /` route: each listed key is read
with a plain `get` (a raw string, no `{ type: 'json' }`), and that string
value is what `dateTriggerSchema.safeParse` receives. -/
def listDateTriggersRead (raw : List (Option String)) : List DateTrigger :=
  raw.filterMap (fun o => o.bind (fun s => decodeDateTrigger (JsonVal.jstr s)))

/-- The identity key the `POST /api/trigger/create` route computes:
the JS template literal `` `${newTrigger.time.hour}${newTrigger.time.minute}` ``,
i.e. the concatenation of the decimal representations. -/
def identKey (h m : Nat) : String := toString h ++ toString m

/-- The full storage key `trigger:${key}` the route writes under. -/
def triggerStorageKey (h m : Nat) : String := "trigger:" ++ identKey h m

/-- The numeric value of a decimal digit character. -/
def dval (c : Char) : Nat := c.toNat - 48

/-- Decoder for `identKey` on the route's validated domain (the time regex
admits hours 06–23 and minutes 00–59): a 2-character key is a one-digit
hour (6–9) and a one-digit minute; a 3-character key starting with 1 or 2
is a two-digit hour and a one-digit minute, otherwise a one-digit hour and
a two-digit minute; a 4-character key is two digits each. -/
def keyDecode (s : String) : Option (Nat × Nat) :=
  match s.data with
  | [a, b] => some (dval a, dval b)
  | [a, b, c] =>
      if a == '1' || a == '2' then some (10 * dval a + dval b, dval c)
      else some (dval a, 10 * dval b + dval c)
  | [a, b, c, d] => some (10 * dval a + dval b, 10 * dval c + dval d)
  | _ => none

/-- A put against the key-value rule store: later writes under the same key
replace earlier ones (Cloudflare KV semantics the routes rely on). -/
def kvPut (store : String → Option String) (k v : String) : String → Option String :=
  fun k2 => if k2 = k then some v else store k2

end Fetch

/-- Stated from the spec's words (§4.4), for comparison with the code: the
qualifying active rule with the highest threshold, ties going to the later
rule in the list. -/
def spec_highestQualifyingRule (ts : List Trigger) (hour : Int) (temp : ℚ) : Option Trigger :=
  ((filterValidTrigger ts hour).filter (fun t => decide (t.temp ≤ temp))).foldl
    (fun acc t =>
      match acc with
      | none => some t
      | some u => if t.temp ≥ u.temp then some t else some u) none

/-- Rules list whose first rule at hour 17 has threshold 0 (a legal
threshold: the range is [0,100]). -/
def c1Rules : List Trigger := [⟨17, 0⟩, ⟨17, 35⟩]

/-- Eligible Thursday tick at hour 17 with the meter at 36 and an empty
history. -/
def c1Input : TickInput :=
  { day := 4, holiday := false, hour := 17, dateKey := "2023-08-10",
    history := fun _ => none, meterTemp := 36, actuationOk := true }

/-- Claim C1 counterexample: at hour 17 with the meter at 36, an active
rule (threshold 0 ≤ 36) qualifies, yet
`!!triggerTemps.find((t) => actualTemp >= t)` finds the threshold 0 first
and `!!0` is false, so `shouldActuate` is false — refuting the claimed
"true iff at least one active rule's threshold ≤ temperature"; end to end
the tick issues no actuation. -/
theorem C1_zero_threshold_refutes_iff :
    (∃ t ∈ filterValidTrigger c1Rules 17, t.temp ≤ (36 : ℚ)) ∧
    shouldActuate (filterValidTrigger c1Rules 17) 36 = false ∧
    (scheduledRun c1Rules c1Input).actuation = none :=
  ⟨⟨⟨17, 0⟩, by decide, by decide⟩, by decide, by decide⟩

/-- Claim C1 amended: `filterValidTrigger` (the spec's `selectActiveRules`)
returns exactly the subset of the triggers whose hour equals the given
hour; provided no active rule's threshold is 0, `shouldActuate` over the
active set is true iff at least one active rule's threshold is at most the
sensor temperature (a found threshold of 0 is coerced to false by the
source's `!!`); on an empty active set it is false. -/
theorem C1_amended_select_and_actuate (ts : List Trigger) (hour : Int) (temp : ℚ)
    (hnz : ∀ t ∈ filterValidTrigger ts hour, t.temp ≠ 0) :
    (∀ t : Trigger, t ∈ filterValidTrigger ts hour ↔ t ∈ ts ∧ t.hour = hour) ∧
    (shouldActuate (filterValidTrigger ts hour) temp = true ↔
      ∃ t ∈ filterValidTrigger ts hour, t.temp ≤ temp) ∧
    shouldActuate [] temp = false := by
  refine ⟨?_, ?_, rfl⟩
  · intro t
    simp [filterValidTrigger, List.mem_filter]
  · unfold shouldActuate
    constructor
    · intro hsa
      cases hf : (jsSetDedup ((filterValidTrigger ts hour).map (fun t => t.temp))).find?
          (fun v => decide (temp ≥ v)) with
      | none => rw [hf] at hsa; exact absurd hsa (by simp)
      | some v =>
          have hv := List.find?_some hf
          have hmem := List.mem_of_find?_eq_some hf
          rw [jsSetDedup_mem] at hmem
          obtain ⟨t, ht, rfl⟩ := List.mem_map.mp hmem
          exact ⟨t, ht, ge_iff_le.mp (of_decide_eq_true hv)⟩
    · rintro ⟨t, ht, hle⟩
      have hs : ((jsSetDedup ((filterValidTrigger ts hour).map (fun t => t.temp))).find?
          (fun v => decide (temp ≥ v))).isSome := by
        rw [List.find?_isSome]
        exact ⟨t.temp, by rw [jsSetDedup_mem]; exact List.mem_map.mpr ⟨t, ht, rfl⟩,
          decide_eq_true (ge_iff_le.mpr hle)⟩
      obtain ⟨v, hf⟩ := Option.isSome_iff_exists.mp hs
      rw [hf]
      have hvmem := List.mem_of_find?_eq_some hf
      rw [jsSetDedup_mem] at hvmem
      obtain ⟨t2, ht2, rfl⟩ := List.mem_map.mp hvmem
      exact decide_eq_true (hnz t2 ht2)

/-- Claim C1 amended, witness at the repository's own rules: every active
threshold at hour 17 is nonzero, and a meter reading of 36 actuates since
the hour-17 threshold 35 qualifies. -/
theorem C1_amended_select_and_actuate_witness :
    shouldActuate (filterValidTrigger TRIGGERS 17) 36 = true :=
  ((C1_amended_select_and_actuate TRIGGERS 17 36 (by decide)).2.1).mpr
    ⟨⟨17, 35⟩, by decide, by decide⟩

/-- Claim C3: when the daily completion record is already present, the tick
terminates with no sensor read, no actuation and no history write. -/
theorem C3_dedup_guard_blocks (inp : TickInput)
    (h : isAlreadyTurnedOnToday inp.dateKey inp.history = true) :
    (scheduled inp).sensorRead = false ∧ (scheduled inp).actuation = none ∧
      (scheduled inp).historyPut = none := by
  unfold scheduled scheduledRun
  rw [h]
  split
  · exact ⟨rfl, rfl, rfl⟩
  · split
    · exact ⟨rfl, rfl, rfl⟩
    · simp

/-- Tick at the spec's regression scenario: hour 18 on an eligible weekday,
meter at 40 (so the hour-18 threshold 33 would match), but the history
already holds the day's completion record. -/
def c3Input : TickInput :=
  { day := 1, holiday := false, hour := 18, dateKey := "2023-08-01",
    history := fun k => if k = "2023-08-01" then some "done!" else none,
    meterTemp := 40, actuationOk := true }

/-- Claim C3 witness: a second tick the same day after a success does not
read the sensor, actuate, or write, even though a threshold matches. -/
theorem C3_dedup_guard_blocks_witness :
    (scheduled c3Input).sensorRead = false ∧ (scheduled c3Input).actuation = none ∧
      (scheduled c3Input).historyPut = none :=
  C3_dedup_guard_blocks c3Input (by decide)

/-- Claim C7: `getWhatWeekOfMonth` is `1 + (day - 1 + offset) / 7` with
`offset` the Sunday-based weekday of the month's first day; it is 1 on the
first day of every month, and the regression cases of `date.test.ts` hold:
2023-06-28 ↦ 5, 2023-06-30 ↦ 5, 2023-07-01 ↦ 1. -/
theorem C7_weekOfMonth (y m d : Nat) :
    getWhatWeekOfMonth y m d = 1 + (d - 1 + dayOfWeek y m 1) / 7 ∧
    getWhatWeekOfMonth y m 1 = 1 ∧
    getWhatWeekOfMonth 2023 6 28 = 5 ∧ getWhatWeekOfMonth 2023 6 30 = 5 ∧
    getWhatWeekOfMonth 2023 7 1 = 1 := by
  refine ⟨rfl, ?_, by decide, by decide, by decide⟩
  have hlt : dayOfWeek y m 1 < 7 := Nat.mod_lt _ (by norm_num)
  unfold getWhatWeekOfMonth
  omega

/-- Claim C8: the calendar gate is false on Sunday (0) and Saturday (6)
whatever the hour, false on every banned pre-dawn hour whatever the day,
and an ineligible tick performs no store read, sensor read or actuation. -/
theorem C8_calendar_gate (day hour : Int) (hol : Bool) (inp : TickInput) :
    ((day = 0 ∨ day = 6) → isEligible day hol hour = false) ∧
    ((0 ≤ hour ∧ hour < 7) → isEligible day hol hour = false) ∧
    (isEligible inp.day inp.holiday inp.hour = false → scheduledRun TRIGGERS inp = emptyTick) := by
  refine ⟨?_, ?_, ?_⟩
  · rintro (rfl | rfl) <;> simp [isEligible, isWeekend]
  · rintro ⟨h1, h2⟩
    simp [isEligible, isBannedHour, h1, h2]
  · intro he
    unfold isEligible at he
    unfold scheduledRun
    cases hx : (isWeekend inp.day || inp.holiday) with
    | true => simp
    | false =>
        cases hbx : isBannedHour inp.hour with
        | false => rw [hx, hbx] at he; simp at he
        | true => simp

/-- Tick on a Saturday (day index 6) with everything else favourable. -/
def c8Input : TickInput :=
  { day := 6, holiday := false, hour := 16, dateKey := "2023-08-05",
    history := fun _ => none, meterTemp := 50, actuationOk := true }

/-- Claim C8 witness: Saturday at any hour is ineligible, hour 5 is banned
on a Wednesday, and the Saturday tick produces no effect at all. -/
theorem C8_calendar_gate_witness :
    isEligible 6 false 16 = false ∧ isEligible 3 false 5 = false ∧
      scheduledRun TRIGGERS c8Input = emptyTick :=
  ⟨(C8_calendar_gate 6 16 false c8Input).1 (Or.inr rfl),
   (C8_calendar_gate 3 5 false c8Input).2.1 ⟨by decide, by decide⟩,
   (C8_calendar_gate 6 16 false c8Input).2.2 (by decide)⟩

/-- Claim C10: a tick that passes the calendar gates and the dedup check
but matches no trigger hour stops right after the rule lookup: history was
read, but there is no sensor read, no actuation and no history write. -/
theorem C10_no_matching_hour_stops (inp : TickInput)
    (h1 : (isWeekend inp.day || inp.holiday) = false)
    (h2 : isBannedHour inp.hour = false)
    (h3 : isAlreadyTurnedOnToday inp.dateKey inp.history = false)
    (h4 : filterValidTrigger TRIGGERS inp.hour = []) :
    scheduledRun TRIGGERS inp =
      { historyRead := true, sensorRead := false, actuation := none, historyPut := none } := by
  unfold scheduledRun
  rw [if_neg (by simp [h1]), if_neg (by simp [h2]), if_neg (by simp [h3])]
  simp [h4, jsSetDedup, jsSetDedupAux]

/-- Tick at noon (no trigger has hour 12) on an eligible day with an empty
history. -/
def c10Input : TickInput :=
  { day := 1, holiday := false, hour := 12, dateKey := "2023-08-07",
    history := fun _ => none, meterTemp := 50, actuationOk := true }

/-- Claim C10 witness at hour 12: history read, nothing else. -/
theorem C10_no_matching_hour_stops_witness :
    scheduledRun TRIGGERS c10Input =
      { historyRead := true, sensorRead := false, actuation := none, historyPut := none } :=
  C10_no_matching_hour_stops c10Input (by decide) (by decide) (by decide) (by decide)

/-- Tick whose actuation call fails (`actuationOk := false`) on an eligible
Tuesday at hour 17 with the meter at 36, so the hour-17 rule matches. -/
def c2Input : TickInput :=
  { day := 2, holiday := false, hour := 17, dateKey := "2023-08-08",
    history := fun _ => none, meterTemp := 36, actuationOk := false }

/-- Claim C2 counterexample: on a tick whose actuation fails, the worker
still issues the completion-record write — both `ctx.waitUntil` calls are
made unconditionally, so the record is not written "only after the
actuation call has returned successfully". -/
theorem C2_put_despite_failed_actuation :
    c2Input.actuationOk = false ∧
    (scheduled c2Input).actuation = some 28 ∧
    (scheduled c2Input).historyPut = some ("2023-08-08", "done!", 86400) :=
  ⟨rfl, by decide, by decide⟩

/-- Claim C2 amended: the completion-record write is issued in the same
step as the actuation command, unconditionally: the tick's outcome never
depends on whether the actuation succeeds, and the record write is issued
exactly when the actuation command is. -/
theorem C2_amended_put_with_actuation (inp : TickInput) (b1 b2 : Bool) :
    scheduledRun TRIGGERS { inp with actuationOk := b1 } =
      scheduledRun TRIGGERS { inp with actuationOk := b2 } ∧
    ((scheduledRun TRIGGERS inp).actuation.isSome ↔
      (scheduledRun TRIGGERS inp).historyPut.isSome) := by
  obtain ⟨d, hol, hr, dk, hist, mt, ok⟩ := inp
  refine ⟨rfl, ?_⟩
  unfold scheduledRun
  split
  · simp [emptyTick]
  · split
    · simp [emptyTick]
    · split
      · simp
      · split
        · simp
        · split
          · simp
          · simp

/-- Rules with two distinct-threshold entries at hour 17 (the worker's
logic over the rule list it consults; the repository's constant list never
has two rules at one hour, so varying the list is the only way to realise
the claim's hypothesis). -/
def c4RulesA : List Trigger := [⟨17, 35⟩, ⟨17, 33⟩]

/-- Rules whose highest qualifying threshold is 90 instead of 35. -/
def c4RulesB : List Trigger := [⟨17, 90⟩, ⟨17, 33⟩]

/-- Eligible tick at hour 17, meter at 36: both rules of `c4RulesA`
qualify. -/
def c4InputA : TickInput :=
  { day := 3, holiday := false, hour := 17, dateKey := "2023-08-09",
    history := fun _ => none, meterTemp := 36, actuationOk := true }

/-- Eligible tick at hour 17, meter at 95: both rules of `c4RulesB`
qualify. -/
def c4InputB : TickInput :=
  { day := 3, holiday := false, hour := 17, dateKey := "2023-08-09",
    history := fun _ => none, meterTemp := 95, actuationOk := true }

/-- Claim C4 counterexample: with more than one qualifying active rule the
command the worker sends is the fixed `turnOnAirConditioner(…, 28)` — the
same constant for highest qualifying threshold 35 as for 90, and equal to
neither — so the action sent does not belong to (or vary with) the
qualifying rule with the highest `roomTempThreshold`. -/
theorem C4_action_ignores_highest_rule :
    ((filterValidTrigger c4RulesA 17).filter (fun t => decide (t.temp ≤ (36 : ℚ)))).length = 2 ∧
    spec_highestQualifyingRule c4RulesA 17 36 = some ⟨17, 35⟩ ∧
    (scheduledRun c4RulesA c4InputA).actuation = some 28 ∧
    spec_highestQualifyingRule c4RulesB 17 95 = some ⟨17, 90⟩ ∧
    (scheduledRun c4RulesB c4InputB).actuation = some 28 ∧
    (28 : ℚ) ≠ 35 ∧ (28 : ℚ) ≠ 90 := by
  refine ⟨by decide, by decide, by decide, by decide, by decide, by decide, by decide⟩

/-- Claim C4 amended: whatever the rule list and tick, the only actuation
command the worker can issue is the constant one with target temperature
28; no qualifying rule contributes any data to it. -/
theorem C4_amended_constant_action (ts : List Trigger) (inp : TickInput) :
    (scheduledRun ts inp).actuation = none ∨ (scheduledRun ts inp).actuation = some 28 := by
  unfold scheduledRun
  split
  · exact Or.inl rfl
  · split
    · exact Or.inl rfl
    · split
      · exact Or.inl rfl
      · split
        · exact Or.inl rfl
        · split
          · exact Or.inl rfl
          · exact Or.inr rfl

/-- Helper for C5: on the route's validated domain (hours 06–23, minutes
00–59 by the time regex) the concatenated key determines the pair. -/
theorem keyDecode_identKey : ∀ h : Nat, h < 24 → ∀ m : Nat, m < 60 → 6 ≤ h →
    Fetch.keyDecode (Fetch.identKey h m) = some (h, m) := by decide

/-- Claim C5 counterexample: the stored identity key is the decimal-string
concatenation `${hour}${minute}`, not `hour*100+minute`: at hour 12,
minute 3 the route writes key "123" while `12*100+3` renders as "1203". -/
theorem C5_key_not_hour100_plus_minute :
    Fetch.identKey 12 3 = "123" ∧ toString (12 * 100 + 3) = "1203" ∧
    Fetch.identKey 12 3 ≠ toString (12 * 100 + 3) :=
  ⟨by decide, by decide, by decide⟩

/-- Claim C5 amended: the identity key is the concatenation of the decimal
representations of hour and minute; on the domain the route's validation
admits (hour 6–23, minute 0–59) distinct pairs still get distinct keys,
and a later put under the same key replaces the earlier value. -/
theorem C5_amended_key_injective_lww (h m h2 m2 : Nat)
    (store : String → Option String) (k v1 v2 : String)
    (hb : 6 ≤ h ∧ h < 24 ∧ m < 60) (hb2 : 6 ≤ h2 ∧ h2 < 24 ∧ m2 < 60)
    (heq : Fetch.identKey h m = Fetch.identKey h2 m2) :
    (h, m) = (h2, m2) ∧ Fetch.kvPut (Fetch.kvPut store k v1) k v2 k = some v2 := by
  obtain ⟨hb1, hblt, hm⟩ := hb
  obtain ⟨hg1, hglt, hg3⟩ := hb2
  constructor
  · have e1 := keyDecode_identKey h hblt m hm hb1
    have e2 := keyDecode_identKey h2 hglt m2 hg3 hg1
    rw [heq, e2] at e1
    exact (Option.some.inj e1).symm
  · simp [Fetch.kvPut]

/-- Claim C5 amended, witness at hour 12, minute 3 on a concrete store. -/
theorem C5_amended_key_injective_lww_witness :
    ((12 : Nat), (3 : Nat)) = (12, 3) ∧
      Fetch.kvPut (Fetch.kvPut (fun _ => none) "trigger:123" "old") "trigger:123" "new"
        "trigger:123" = some "new" :=
  C5_amended_key_injective_lww 12 3 12 3 (fun _ => none) "trigger:123" "old" "new"
    ⟨by decide, by decide, by decide⟩ ⟨by decide, by decide, by decide⟩ rfl

/-- Eligible Wednesday tick at hour 16 with the meter at 39 (the hour-16
threshold 38 matches) and an empty history. -/
def c6Input : TickInput :=
  { day := 3, holiday := false, hour := 16, dateKey := "2023-08-02",
    history := fun _ => none, meterTemp := 39, actuationOk := true }

/-- Claim C6 counterexample: the completion-record write the worker issues
carries TTL `60 * 60 * 24` = 86400 seconds — exactly 24 hours, not a value
strictly greater than 24 hours. -/
theorem C6_ttl_exactly_24h :
    (scheduled c6Input).historyPut = some ("2023-08-02", "done!", 86400) ∧
    86400 = 24 * 60 * 60 :=
  ⟨by decide, by decide⟩

/-- Claim C6 amended: every completion-record write issued by the worker
uses a TTL of exactly 86400 seconds (24 hours). -/
theorem C6_amended_ttl_86400 (ts : List Trigger) (inp : TickInput) (k v : String) (ttl : Nat)
    (h : (scheduledRun ts inp).historyPut = some (k, v, ttl)) : ttl = 86400 := by
  unfold scheduledRun at h
  split at h
  · exact absurd h (by simp [emptyTick])
  · split at h
    · exact absurd h (by simp [emptyTick])
    · split at h
      · exact absurd h (by simp)
      · split at h
        · exact absurd h (by simp)
        · split at h
          · exact absurd h (by simp)
          · have := (Option.some.inj h).symm
            rw [Prod.mk.injEq, Prod.mk.injEq] at this
            exact this.2.2

/-- Claim C6 amended, witness: the concrete tick `c6Input` writes its
record and the theorem yields its TTL. -/
theorem C6_amended_ttl_86400_witness : (86400 : Nat) = 86400 :=
  C6_amended_ttl_86400 TRIGGERS c6Input "2023-08-02" "done!" 86400 (by decide)

/-- A stored default-trigger value that decodes strictly. -/
def goodTriggerJson : Fetch.JsonVal :=
  .jobj [("time", .jobj [("hour", .jnum 17), ("minute", .jnum 0)]),
         ("roomTemp", .jnum 35),
         ("airConditionerSettings",
           .jobj [("operationMode", .jstr "COOL"), ("settingsTemp", .jnum 28)])]

/-- The trigger `goodTriggerJson` denotes. -/
def goodTrigger : Fetch.Trigger := ⟨⟨17, 0⟩, 35, ⟨.cool, 28⟩⟩

/-- A stored date-override value that decodes strictly. -/
def goodDateJson : Fetch.JsonVal :=
  .jobj [("date", .jobj [("year", .jnum 2023), ("month", .jnum 6), ("dy", .jnum 28)]),
         ("triggers", .jarr [goodTriggerJson])]

/-- Claim C9: the default-trigger listing does skip a malformed record and
a vanished key while returning the well-formed one; but the date-override
listing reads each value as a raw string (no `{ type: 'json' }`), and
`dateTriggerSchema.safeParse` fails on every string, so the listing is
empty for every store contents — even when a stored value (here
`goodDateJson`) is perfectly well-formed.  The code drops well-formed
date-override records, contradicting the claim. -/
theorem C9_date_listing_drops_wellformed :
    Fetch.listTriggersRead [some goodTriggerJson, some (.jstr "corrupt"), none] = [goodTrigger] ∧
    Fetch.decodeDateTrigger goodDateJson = some ⟨⟨2023, 6, 28⟩, [goodTrigger]⟩ ∧
    (∀ raw : List (Option String), Fetch.listDateTriggersRead raw = []) := by
  refine ⟨by decide, by decide, ?_⟩
  intro raw
  induction raw with
  | nil => rfl
  | cons o t ih =>
      cases o with
      | none => simpa [Fetch.listDateTriggersRead] using ih
      | some s =>
          have hds : Fetch.decodeDateTrigger (.jstr s) = none := rfl
          simpa [Fetch.listDateTriggersRead, hds] using ih

end TurnOnAC
